import Mathlib

/-!
Verification of the go-mod-registry registry/configuration client engine
against its natural-language specification.

The Go source is shallowly embedded: pure functions become Lean functions,
HTTP/agent backends become explicit state (association lists of registered
services, health checks and key/value pairs), fallible code returns
`Option`/`Except`, and a Go `panic` is modelled as `Option.none`.
Machine integers are `Int` with an explicit two's-complement wrap where the
source converts between widths.
-/

namespace GoRegistry

/-! # Go standard-library string helpers

The engine calls `strings.HasPrefix`, `strings.Contains`, `strings.EqualFold`
(external collaborators).  They are modelled over the character list of a
`String`; `strings.EqualFold` is modelled by ASCII lower-casing both sides,
which coincides with Go's Unicode simple case folding on the ASCII status
strings that reach it. -/

/-- Go `strings.HasPrefix s pre`. -/
def goHasPrefix (s pre : String) : Bool :=
  pre.data.isPrefixOf s.data

def goContainsAux (sub : List Char) : List Char → Bool
  | [] => sub.isPrefixOf []
  | c :: cs => sub.isPrefixOf (c :: cs) || goContainsAux sub cs

/-- Go `strings.Contains s sub`: `sub` occurs as a contiguous substring. -/
def goContains (s sub : String) : Bool :=
  goContainsAux sub.data s.data

def asciiLower (c : Char) : Char :=
  if 'A' ≤ c ∧ c ≤ 'Z' then Char.ofNat (c.toNat + 32) else c

def goToLower (s : String) : String :=
  ⟨s.data.map asciiLower⟩

/-! # The configuration value model

`convertInterfaceToConsulPairs` (internal/pkg/consul/client.go) walks an
`interface{}` produced by `toml.Tree.ToMap()`.  The dynamic values that can
appear are nested maps, sequences, and scalars.  The Go type switch handles
`[]interface{}`, `map[string]interface{}`, `int`, `int64`, `float64`, `bool`
and `nil` explicitly; every other dynamic type falls to the `default` branch,
whose body is the unchecked Go type assertion `interfaceMap.(string)`.

The mutual inductive mirrors that dynamic-type universe:
* `vInt` is a Go `int` scalar, `vInt64` a Go `int64` scalar;
* `vFloat64` is a Go `float64` scalar.  The source only ever formats floats,
  via `strconv.FormatFloat(f, 'f', -1, 64)`, which by the strconv contract
  yields the shortest fixed-notation decimal string that parses back to
  exactly `f`.  We therefore model a float64 value by that canonical decimal
  string itself; no float arithmetic occurs anywhere in the engine.
* `vStr` is a `string` scalar (it reaches the `default` branch, where the
  `.(string)` assertion succeeds and yields the string unchanged);
* `vOther` is a scalar of any other dynamic type (e.g. `time.Time`, which
  `toml.Tree.ToMap` produces for datetime values, or `uint`); its payload
  records the dynamic type name.  On such a value the `default` branch's
  `.(string)` assertion fails, which in Go is a panic.
-/

mutual

inductive Value where
  | vInt (n : Int) : Value
  | vInt64 (n : Int) : Value
  | vFloat64 (canonical : String) : Value
  | vBool (b : Bool) : Value
  | vNull : Value
  | vStr (s : String) : Value
  | vOther (dynTypeName : String) : Value
  | vSeq (items : ValueItems) : Value
  | vMap (fields : ValueFields) : Value
deriving DecidableEq

inductive ValueItems where
  | nil : ValueItems
  | cons (v : Value) (rest : ValueItems) : ValueItems
deriving DecidableEq

inductive ValueFields where
  | nil : ValueFields
  | cons (name : String) (v : Value) (rest : ValueFields) : ValueFields
deriving DecidableEq

end

/-- A Consul key/value pair, `type pair struct` of internal/pkg/consul/client.go. -/
structure Pair where
  key : String
  value : String
deriving DecidableEq

/-- Two's-complement wrap of an integer into `w` bits: the value of the Go
conversion `int(x)` from `int64` when the native `int` type is `w` bits wide.
The Go language specification allows the native `int` to be 32 or 64 bits, so
the embedding of the flattener is parameterised by `w`. -/
def intWrap (w : Nat) (x : Int) : Int :=
  (x + 2 ^ (w - 1)) % 2 ^ w - 2 ^ (w - 1)

/-- Go `strconv.FormatBool`. -/
def formatBool (b : Bool) : String :=
  if b then "true" else "false"

/-- Go `strconv.Itoa` / decimal rendering of a (signed) integer. -/
def itoa (n : Int) : String :=
  toString n

mutual

/-- `convertInterfaceToConsulPairs` of internal/pkg/consul/client.go, with the
native `int` width `w` as an explicit parameter.  The result is `none` when the
walk panics: the `default` branch of the Go type switch runs the unchecked type
assertion `interfaceMap.(string)`, which panics unless the dynamic type is
`string`.  Go map iteration order is unspecified; the embedding fixes the
field-list order of the `vMap` node. -/
def convertInterfaceToConsulPairs (w : Nat) (path : String) (v : Value) :
    Option (List Pair) :=
  let pathPre := if path = "" then "" else path ++ "/"
  match v with
  | .vSeq items => convertSeqPairs w pathPre 0 items
  | .vMap fields => convertMapPairs w pathPre fields
  | .vInt n => some [⟨path, itoa n⟩]
  | .vInt64 n => some [⟨path, itoa (intWrap w n)⟩]
  | .vFloat64 canonical => some [⟨path, canonical⟩]
  | .vBool b => some [⟨path, formatBool b⟩]
  | .vNull => some [⟨path, ""⟩]
  | .vStr s => some [⟨path, s⟩]
  | .vOther _ => none

/-- The `case []interface{}` loop: each element is flattened under
`pathPre + strconv.Itoa(index)` and the pair lists are appended in order. -/
def convertSeqPairs (w : Nat) (pathPre : String) (index : Nat) :
    ValueItems → Option (List Pair)
  | .nil => some []
  | .cons v rest =>
    match convertInterfaceToConsulPairs w (pathPre ++ itoa index) v with
    | none => none
    | some nextPairs =>
      match convertSeqPairs w pathPre (index + 1) rest with
      | none => none
      | some tailPairs => some (nextPairs ++ tailPairs)

/-- The `case map[string]interface{}` loop: each field is flattened under
`pathPre + fieldName` and the pair lists are appended. -/
def convertMapPairs (w : Nat) (pathPre : String) :
    ValueFields → Option (List Pair)
  | .nil => some []
  | .cons name v rest =>
    match convertInterfaceToConsulPairs w (pathPre ++ name) v with
    | none => none
    | some nextPairs =>
      match convertMapPairs w pathPre rest with
      | none => none
      | some tailPairs => some (nextPairs ++ tailPairs)

end

mutual

/-- A value is built only from nested maps, sequences and the scalars the
type switch handles explicitly (`int`, `int64`, `float64`, `bool`, `nil`):
no `string` and no unhandled dynamic type anywhere inside. -/
def handledOnly : Value → Bool
  | .vInt _ => true
  | .vInt64 _ => true
  | .vFloat64 _ => true
  | .vBool _ => true
  | .vNull => true
  | .vStr _ => false
  | .vOther _ => false
  | .vSeq items => handledOnlyItems items
  | .vMap fields => handledOnlyFields fields

def handledOnlyItems : ValueItems → Bool
  | .nil => true
  | .cons v rest => handledOnly v && handledOnlyItems rest

def handledOnlyFields : ValueFields → Bool
  | .nil => true
  | .cons _ v rest => handledOnly v && handledOnlyFields rest

end

mutual

/-- Number of scalar leaves of a value (everything except the map/sequence
structure). -/
def leafCount : Value → Nat
  | .vSeq items => leafCountItems items
  | .vMap fields => leafCountFields fields
  | _ => 1

def leafCountItems : ValueItems → Nat
  | .nil => 0
  | .cons v rest => leafCount v + leafCountItems rest

def leafCountFields : ValueFields → Nat
  | .nil => 0
  | .cons _ v rest => leafCount v + leafCountFields rest

end

/-- The path-joining rule in the words of the specification: the child path is
the parent path and the segment joined with "/", with no separator when the
parent is the root (empty) path. -/
def joinPath (parent seg : String) : String :=
  if parent = "" then seg else parent ++ "/" ++ seg

mutual

/-- The flattening as the specification words it (spec §4.1): one emitted pair
per scalar leaf, whose path joins map field names and decimal sequence indices
with "/" (no separator at the root), integers as decimal text, 64-bit integers
truncated to the native width then rendered as decimal, floats via the
shortest round-trippable decimal representation, booleans as "true"/"false",
null as the empty string. -/
def specFlatten (w : Nat) (path : String) : Value → List Pair
  | .vSeq items => specFlattenItems w path 0 items
  | .vMap fields => specFlattenFields w path fields
  | .vInt n => [⟨path, itoa n⟩]
  | .vInt64 n => [⟨path, itoa (intWrap w n)⟩]
  | .vFloat64 canonical => [⟨path, canonical⟩]
  | .vBool b => [⟨path, formatBool b⟩]
  | .vNull => [⟨path, ""⟩]
  | .vStr s => [⟨path, s⟩]
  | .vOther _ => []

def specFlattenItems (w : Nat) (path : String) (index : Nat) :
    ValueItems → List Pair
  | .nil => []
  | .cons v rest =>
    specFlatten w (joinPath path (itoa index)) v
      ++ specFlattenItems w path (index + 1) rest

def specFlattenFields (w : Nat) (path : String) :
    ValueFields → List Pair
  | .nil => []
  | .cons name v rest =>
    specFlatten w (joinPath path name) v ++ specFlattenFields w path rest

end

/-! # The Consul key/value store

The Consul KV backend is external to the repository; the client only uses
`KV().Get`, `KV().Put` and `KV().Keys(prefix)`.  It is modelled as an
association list from full key paths to stored string values: `Get` is the
first-match lookup, `Put` replaces the value of an existing key or appends a
new entry, and `Keys(prefix)` lists every key of which `prefix` is a textual
prefix (Consul's prefix listing). -/

abbrev ConsulStore := List (String × String)

def storeGet (store : ConsulStore) (key : String) : Option String :=
  List.lookup key store

def storePut (store : ConsulStore) (key value : String) : ConsulStore :=
  if (storeGet store key).isSome then
    store.map (fun entry => if entry.1 = key then (key, value) else entry)
  else
    store ++ [(key, value)]

/-- `KV().Keys(prefix, "", nil)`: the keys of the store having `prefix` as a
textual prefix. -/
def storeKeys (store : ConsulStore) (pre : String) : List String :=
  (store.filter (fun entry => goHasPrefix entry.1 pre)).map Prod.fst

/-- `fullPath` of internal/pkg/consul/client.go: the configuration base path,
a "/" separator, and the value name. -/
def fullPath (configBasePath name : String) : String :=
  configBasePath ++ "/" ++ name

/-- `ConfigurationValueExists` of internal/pkg/consul/client.go against a
store state (the Consul round trip itself cannot fail in the state model, so
only the boolean result is kept). -/
def configurationValueExists (configBasePath : String) (store : ConsulStore)
    (name : String) : Bool :=
  (storeGet store (fullPath configBasePath name)).isSome

/-- `PutConfigurationValue` of internal/pkg/consul/client.go against a store
state. -/
def putConfigurationValue (configBasePath : String) (store : ConsulStore)
    (name value : String) : ConsulStore :=
  storePut store (fullPath configBasePath name) value

/-- The `for _, keyValue := range keyValues` loop of `PutConfigurationToml`
(internal/pkg/consul/client.go): each pair is written only when
`!exists || overwrite`. -/
def putPairsLoop (configBasePath : String) (overwrite : Bool)
    (store : ConsulStore) : List Pair → ConsulStore
  | [] => store
  | keyValue :: rest =>
    let store' :=
      if !configurationValueExists configBasePath store keyValue.key
          || overwrite then
        putConfigurationValue configBasePath store keyValue.key keyValue.value
      else store
    putPairsLoop configBasePath overwrite store' rest

/-- `PutConfigurationToml` of internal/pkg/consul/client.go: flatten the
configuration with `convertInterfaceToConsulPairs("", ...)` and run the
conditional-write loop; `none` when the flattening panics. -/
def putConfigurationToml (w : Nat) (configBasePath : String)
    (store : ConsulStore) (configuration : Value) (overwrite : Bool) :
    Option ConsulStore :=
  match convertInterfaceToConsulPairs w "" configuration with
  | none => none
  | some keyValues => some (putPairsLoop configBasePath overwrite store keyValues)

/-- `HasConfiguration` of internal/pkg/consul/client.go: list the keys under
`configBasePath` with Consul's prefix listing and report whether the listing
is non-empty. -/
def hasConfiguration (configBasePath : String) (store : ConsulStore) : Bool :=
  !(storeKeys store configBasePath).isEmpty

/-! # Service endpoints and availability

The agent/registration backends are modelled by their state: the Consul agent
by an association list of registered services (`Agent().Services()`) and a
health-check listing per service key (`Health().Checks(key)`); the Keeper
backend by an association list of registrations.  The Keeper HTTP responses
follow the wire behaviour of MockKeeper (mock_keeper.go): a GET of
`/registry/serviceId/<key>` answers 404 with message "not found" for an
unknown key and 200 with the registration otherwise. -/

/-- `ServiceEndpoint` of interface.go / pkg/types. -/
structure ServiceEndpoint where
  serviceId : String
  host : String
  port : Int
deriving DecidableEq

/-- The fields of a Consul `AgentService` the client reads. -/
structure AgentService where
  address : String
  port : Int
deriving DecidableEq

/-- The fields of a Keeper `RegistrationDTO` the client reads. -/
structure Registration where
  status : String
  host : String
  port : Int
deriving DecidableEq

/-- `GetServiceEndpoint` of internal/pkg/consul/client.go (the client in
src/internal/pkg/consul): the endpoint is populated only when the service key
is present in `Agent().Services()`; a missing key leaves the zero-value
endpoint and the error `nil`. -/
def consulGetServiceEndpoint (services : List (String × AgentService))
    (serviceID : String) : Except String ServiceEndpoint :=
  match List.lookup serviceID services with
  | some service => .ok ⟨serviceID, service.address, service.port⟩
  | none => .ok ⟨"", "", 0⟩

/-- `GetServiceEndpoint` of the later Consul client (src/unnamed/part_006):
a missing key returns the zero-value endpoint together with the error
"no matching service endpoint found". -/
def consulGetServiceEndpointLater (services : List (String × AgentService))
    (serviceID : String) : Except String ServiceEndpoint :=
  match List.lookup serviceID services with
  | some service => .ok ⟨serviceID, service.address, service.port⟩
  | none => .error "no matching service endpoint found"

/-- `GetServiceEndpoint` of internal/pkg/keeper/client.go against the Keeper
registration state: an unknown key produces the backend's 404 "not found"
response, which the client turns into the error
`failed to get service endpoint: not found`; a known key yields the endpoint
built from the registration's host and port. -/
def keeperGetServiceEndpoint (registrations : List (String × Registration))
    (serviceKey : String) : Except String ServiceEndpoint :=
  match List.lookup serviceKey registrations with
  | none => .error "failed to get service endpoint: not found"
  | some r => .ok ⟨serviceKey, r.host, r.port⟩

/-- Go `strings.EqualFold` restricted to the ASCII status strings used here:
equality after lower-casing both sides. -/
def stringsEqualFold (a b : String) : Bool :=
  goToLower a == goToLower b

/-- `IsServiceAvailable` of internal/pkg/keeper/client.go against the Keeper
registration state, as the pair (available, error): 404 gives
(false, not-registered error); 200 gives (false, not-healthy error) unless the
registration status is "up" under `strings.EqualFold`, in which case
(true, no error). -/
def keeperIsServiceAvailable (registrations : List (String × Registration))
    (serviceKey : String) : Bool × Option String :=
  match List.lookup serviceKey registrations with
  | none =>
    (false, some (serviceKey ++ " service is not registered. Might not have started... "))
  | some r =>
    if !stringsEqualFold r.status "up" then
      (false, some (" " ++ serviceKey ++ " service not healthy..."))
    else
      (true, none)

/-- The fields of a Consul `AgentCheck` that `AggregatedStatus` reads. -/
structure AgentCheck where
  checkID : String
  status : String
deriving DecidableEq

/-- The loop of `HealthChecks.AggregatedStatus` of the hashicorp/consul/api
package (external collaborator, modelled from its source): maintenance checks
are recognised by check ID, the known statuses "passing"/"warning"/"critical"
set a flag, any unknown status short-circuits to "critical", and the final
status is the worst flag seen (maintenance over critical over warning over
passing, defaulting to "passing"). -/
def aggregatedStatusLoop (passing warning critical maintenance : Bool) :
    List AgentCheck → String
  | [] =>
    if maintenance then "maintenance"
    else if critical then "critical"
    else if warning then "warning"
    else if passing then "passing"
    else "passing"
  | check :: rest =>
    if check.checkID = "_node_maintenance"
        || goHasPrefix check.checkID "_service_maintenance:" then
      aggregatedStatusLoop passing warning critical true rest
    else if check.status = "passing" then
      aggregatedStatusLoop true warning critical maintenance rest
    else if check.status = "warning" then
      aggregatedStatusLoop passing true critical maintenance rest
    else if check.status = "critical" then
      aggregatedStatusLoop passing warning true maintenance rest
    else "critical"

def aggregatedStatus (checks : List AgentCheck) : String :=
  aggregatedStatusLoop false false false false checks

/-- `IsServiceAvailable` of the later Consul client (src/unnamed/part_006)
against the agent state, as the pair (available, error): an unregistered key
gives (false, not-registered error); a registered key with an empty health
check listing gives (false, "no health checks" error); a non-"passing"
aggregated status gives (false, not-healthy error); otherwise (true, none). -/
def consulIsServiceAvailable (services : List (String × AgentService))
    (checks : String → List AgentCheck) (serviceKey : String) :
    Bool × Option String :=
  match List.lookup serviceKey services with
  | none =>
    (false, some (serviceKey ++ " service is not registered. Might not have started... "))
  | some _ =>
    let healthCheck := checks serviceKey
    if healthCheck.length = 0 then
      (false, some ("no health checks for service " ++ serviceKey))
    else if aggregatedStatus healthCheck ≠ "passing" then
      (false, some (" " ++ serviceKey ++ " service not healthy..."))
    else
      (true, none)

/-! # Client construction and Register

`Config` (interface.go / pkg/types) carries the registry connection
parameters and the caller's service identity; `NewConsulClient` and
`NewKeeperClient` copy the service-identity fields only when `ServiceHost` is
non-empty, and `Register` refuses to do anything when any identity field is
still empty or zero.  To express "without any network call", `Register` is
embedded as a function of the backend's per-call responses that also returns
the list of network calls it issued, in order. -/

/-- `Config` of interface.go (equally `types.Config`); the fields the engine
reads. -/
structure Config where
  Protocol : String
  Host : String
  Port : Int
  Stem : String
  ServiceKey : String
  ServiceHost : String
  ServicePort : Int
  ServiceProtocol : String
  CheckRoute : String
  CheckInterval : String
deriving DecidableEq

/-- `Config.GetRegistryProtocol` of interface.go. -/
def getRegistryProtocol (config : Config) : String :=
  if config.Protocol = "" then "http" else config.Protocol

/-- `Config.GetServiceProtocol` of interface.go. -/
def getServiceProtocol (config : Config) : String :=
  if config.ServiceProtocol = "" then "http" else config.ServiceProtocol

/-- `Config.GetRegistryUrl` of interface.go. -/
def getRegistryUrl (config : Config) : String :=
  getRegistryProtocol config ++ "://" ++ config.Host ++ ":" ++ itoa config.Port

/-- `Config.GetHealthCheckUrl` of interface.go. -/
def getHealthCheckUrl (config : Config) : String :=
  getServiceProtocol config ++ "://" ++ config.ServiceHost ++ ":"
    ++ itoa config.ServicePort ++ config.CheckRoute

/-- The `consulClient` struct fields that `Register` reads
(internal/pkg/consul/client.go). -/
structure ConsulClientState where
  consulUrl : String
  configBasePath : String
  serviceKey : String
  serviceAddress : String
  servicePort : Int
  healthCheckUrl : String
  healthCheckInterval : String
deriving DecidableEq

/-- `NewConsulClient` of internal/pkg/consul/client.go (the Consul API handle
construction is external and cannot fail in the state model): the service
identity fields are populated only when `ServiceHost` is non-empty. -/
def newConsulClient (registryConfig : Config) : ConsulClientState :=
  let client : ConsulClientState :=
    { consulUrl := getRegistryUrl registryConfig
      configBasePath := registryConfig.Stem ++ registryConfig.ServiceKey
      serviceKey := registryConfig.ServiceKey
      serviceAddress := ""
      servicePort := 0
      healthCheckUrl := ""
      healthCheckInterval := "" }
  if registryConfig.ServiceHost ≠ "" then
    { client with
      servicePort := registryConfig.ServicePort
      serviceAddress := registryConfig.ServiceHost
      healthCheckUrl := getHealthCheckUrl registryConfig
      healthCheckInterval := registryConfig.CheckInterval }
  else client

/-- The network calls `Register` can issue. -/
inductive NetCall where
  | serviceRegister
  | checkRegister
  | keeperRegisterPost
deriving DecidableEq

/-- `Register` of internal/pkg/consul/client.go: the guard rejects an
incomplete service identity before anything is sent; otherwise the service
registration and then the health-check registration are issued, stopping at
the first failing call.  `net` gives the backend's response to each call; the
second component of the result is the trace of calls issued. -/
def consulRegister (client : ConsulClientState)
    (net : NetCall → Except String Unit) : Except String Unit × List NetCall :=
  if client.serviceKey = "" || client.serviceAddress = ""
      || client.servicePort = 0 || client.healthCheckUrl = ""
      || client.healthCheckInterval = "" then
    (.error "unable to register service with consul: Service information not set", [])
  else
    match net .serviceRegister with
    | .error e => (.error e, [.serviceRegister])
    | .ok _ =>
      match net .checkRegister with
      | .error e => (.error e, [.serviceRegister, .checkRegister])
      | .ok _ => (.ok (), [.serviceRegister, .checkRegister])

/-- The `keeperClient` struct fields that `Register` reads
(internal/pkg/keeper/client.go). -/
structure KeeperClientState where
  keeperUrl : String
  serviceKey : String
  serviceAddress : String
  servicePort : Int
  healthCheckRoute : String
  healthCheckInterval : String
deriving DecidableEq

/-- `NewKeeperClient` of internal/pkg/keeper/client.go: the service identity
fields are populated only when `ServiceHost` is non-empty. -/
def newKeeperClient (registryConfig : Config) : KeeperClientState :=
  let client : KeeperClientState :=
    { keeperUrl := getRegistryUrl registryConfig
      serviceKey := registryConfig.ServiceKey
      serviceAddress := ""
      servicePort := 0
      healthCheckRoute := ""
      healthCheckInterval := "" }
  if registryConfig.ServiceHost ≠ "" then
    { client with
      servicePort := registryConfig.ServicePort
      serviceAddress := registryConfig.ServiceHost
      healthCheckRoute := registryConfig.CheckRoute
      healthCheckInterval := registryConfig.CheckInterval }
  else client

/-- `Register` of internal/pkg/keeper/client.go: the guard rejects an
incomplete service identity before anything is sent; otherwise one POST of the
registration request is issued. -/
def keeperRegister (client : KeeperClientState)
    (net : NetCall → Except String Unit) : Except String Unit × List NetCall :=
  if client.serviceKey = "" || client.serviceAddress = ""
      || client.servicePort = 0 || client.healthCheckRoute = ""
      || client.healthCheckInterval = "" then
    (.error "unable to register service with keeper: Service information not set", [])
  else
    match net .keeperRegisterPost with
    | .error e => (.error e, [.keeperRegisterPost])
    | .ok _ => (.ok (), [.keeperRegisterPost])

/-! # The access-token retry wrapper -/

/-- An error from the Consul backend, with 403/Forbidden-class responses
distinguished. -/
inductive ConsulError where
  | forbidden
  | other (msg : String)
deriving DecidableEq

/-- The outcome of one wrapped operation: the surfaced result, the token the
client holds afterwards, how many times the renewal callback ran, and how many
times the underlying operation was attempted. -/
structure TokenRetryOutcome (α : Type) where
  result : Except ConsulError α
  heldToken : String
  renewalCalls : Nat
  attempts : Nat

/-- Modelled from the spec: the access-token retry wrapper of §4.2 is not
present under src (only its test, `TestRenewAccessToken` in
src/unnamed/part_005, is).  Following the spec's words: the operation is
attempted first with the currently held token; if the backend reports a
403/Forbidden-class failure and a renewal callback was supplied at
construction, the callback is invoked exactly once, the held token is replaced
by the token it returns, and the operation is retried exactly once more; if
the callback itself fails, or the retried call also fails, that error is
surfaced with no further renewal or retry.  The callback runs at most once per
wrapped call, so it is modelled by the one outcome `renewCallback` it would
produce; `renewalCalls` counts its invocations. -/
def retryWithAccessToken {α : Type}
    (renewCallback : Option (Except ConsulError String)) (token : String)
    (op : String → Except ConsulError α) : TokenRetryOutcome α :=
  match op token with
  | .ok a => ⟨.ok a, token, 0, 1⟩
  | .error e =>
    if e = .forbidden then
      match renewCallback with
      | none => ⟨.error e, token, 0, 1⟩
      | some (.error renewErr) => ⟨.error renewErr, token, 1, 1⟩
      | some (.ok newToken) => ⟨op newToken, newToken, 1, 2⟩
    else ⟨.error e, token, 0, 1⟩

/-! # The change-watch key adjustment -/

/-- The watch-key adjustment at the top of `WatchForChanges`
(internal/pkg/consul/client.go): a "/" is prepended exactly when
`strings.Contains(watchKey, "/")` is false, i.e. when no "/" occurs anywhere
in the key. -/
def adjustWatchKey (watchKey : String) : String :=
  if !goContains watchKey "/" then "/" ++ watchKey else watchKey

/-- The prefix handed to the consulstructure decoder by `WatchForChanges`:
the configuration base path concatenated with the (possibly adjusted) watch
key. -/
def watchDecoderPre (client : ConsulClientState) (watchKey : String) : String :=
  client.configBasePath ++ adjustWatchKey watchKey

/-- A sample handled configuration value for concrete evaluation: the shape of
`createKeyValueMap` in client_test.go (an int, an int64, a float64, a bool)
with a nested sequence added. -/
def sampleConfig : Value :=
  .vMap (.cons "int" (.vInt 1)
    (.cons "int64" (.vInt64 64)
      (.cons "float64" (.vFloat64 "1.4")
        (.cons "bool" (.vBool true)
          (.cons "seq" (.vSeq (.cons .vNull (.cons (.vInt 7) .nil)))
            .nil)))))

/-! # Theorems -/

theorem string_pathPre_append (path seg : String) :
    (if path = "" then "" else path ++ "/") ++ seg = joinPath path seg := by
  unfold joinPath
  split
  · exact String.empty_append seg
  · rfl

/-- C10: `WatchForChanges` prepends a "/" separator to the watch key exactly
when the key contains no "/" anywhere; hence for a watch key that does contain
a slash, the decoder's watched prefix is the configuration base path
concatenated directly with the key, with no separator inserted. -/
theorem watchForChanges_separator_only_without_slash
    (client : ConsulClientState) (watchKey : String) :
    (goContains watchKey "/" = false →
      watchDecoderPre client watchKey
        = client.configBasePath ++ "/" ++ watchKey) ∧
    (goContains watchKey "/" = true →
      watchDecoderPre client watchKey = client.configBasePath ++ watchKey) := by
  constructor
  · intro h
    rw [String.append_assoc]
    simp [watchDecoderPre, adjustWatchKey, h]
  · intro h
    simp [watchDecoderPre, adjustWatchKey, h]

theorem watchForChanges_separator_witness :
    watchDecoderPre
        { consulUrl := "", configBasePath := "edgex/core/1.0/svc",
          serviceKey := "svc", serviceAddress := "", servicePort := 0,
          healthCheckUrl := "", healthCheckInterval := "" } "Writable/LogLevel"
      = "edgex/core/1.0/svc" ++ "Writable/LogLevel" ∧
    watchDecoderPre
        { consulUrl := "", configBasePath := "edgex/core/1.0/svc",
          serviceKey := "svc", serviceAddress := "", servicePort := 0,
          healthCheckUrl := "", healthCheckInterval := "" } "LogLevel"
      = "edgex/core/1.0/svc" ++ "/" ++ "LogLevel" :=
  ⟨(watchForChanges_separator_only_without_slash _ "Writable/LogLevel").2 (by decide),
   (watchForChanges_separator_only_without_slash _ "LogLevel").1 (by decide)⟩

/-- C6: `Register` returns the configuration error and issues no network call
whenever any service identity field is empty or zero, in both the Consul-style
and the Keeper-style client; in particular a client built from a `Config` with
an empty `ServiceHost` always fails this way. -/
theorem register_incomplete_identity_no_network
    (client : ConsulClientState) (kclient : KeeperClientState) (cfg : Config)
    (net : NetCall → Except String Unit) :
    ((client.serviceKey = "" ∨ client.serviceAddress = ""
        ∨ client.servicePort = 0 ∨ client.healthCheckUrl = ""
        ∨ client.healthCheckInterval = "") →
      consulRegister client net
        = (.error "unable to register service with consul: Service information not set",
            [])) ∧
    ((kclient.serviceKey = "" ∨ kclient.serviceAddress = ""
        ∨ kclient.servicePort = 0 ∨ kclient.healthCheckRoute = ""
        ∨ kclient.healthCheckInterval = "") →
      keeperRegister kclient net
        = (.error "unable to register service with keeper: Service information not set",
            [])) ∧
    (cfg.ServiceHost = "" →
      consulRegister (newConsulClient cfg) net
        = (.error "unable to register service with consul: Service information not set",
            []) ∧
      keeperRegister (newKeeperClient cfg) net
        = (.error "unable to register service with keeper: Service information not set",
            [])) := by
  refine ⟨?_, ?_, ?_⟩
  · intro h
    have : (client.serviceKey = "" || client.serviceAddress = ""
        || client.servicePort = 0 || client.healthCheckUrl = ""
        || client.healthCheckInterval = "") = true := by
      simp only [Bool.or_eq_true, decide_eq_true_eq]
      tauto
    simp [consulRegister, this]
  · intro h
    have : (kclient.serviceKey = "" || kclient.serviceAddress = ""
        || kclient.servicePort = 0 || kclient.healthCheckRoute = ""
        || kclient.healthCheckInterval = "") = true := by
      simp only [Bool.or_eq_true, decide_eq_true_eq]
      tauto
    simp [keeperRegister, this]
  · intro h
    constructor
    · simp [consulRegister, newConsulClient, h]
    · simp [keeperRegister, newKeeperClient, h]

theorem register_incomplete_identity_witness :
    consulRegister
        (newConsulClient
          { Protocol := "", Host := "localhost", Port := 8500,
            Stem := "edgex/core/1.0/", ServiceKey := "consulUnitTest",
            ServiceHost := "", ServicePort := 0, ServiceProtocol := "",
            CheckRoute := "/api/v1/ping", CheckInterval := "1s" })
        (fun _ => .ok ())
      = (.error "unable to register service with consul: Service information not set",
          []) ∧
    keeperRegister
        (newKeeperClient
          { Protocol := "", Host := "localhost", Port := 59883,
            Stem := "edgex/core/1.0/", ServiceKey := "keeperUnitTest",
            ServiceHost := "", ServicePort := 0, ServiceProtocol := "",
            CheckRoute := "/api/v2/ping", CheckInterval := "10s" })
        (fun _ => .ok ())
      = (.error "unable to register service with keeper: Service information not set",
          []) := by
  refine ⟨?_, ?_⟩
  · exact ((register_incomplete_identity_no_network
      (newConsulClient
        { Protocol := "", Host := "localhost", Port := 8500,
          Stem := "edgex/core/1.0/", ServiceKey := "consulUnitTest",
          ServiceHost := "", ServicePort := 0, ServiceProtocol := "",
          CheckRoute := "/api/v1/ping", CheckInterval := "1s" })
      { keeperUrl := "", serviceKey := "", serviceAddress := "",
        servicePort := 0, healthCheckRoute := "", healthCheckInterval := "" }
      { Protocol := "", Host := "localhost", Port := 8500,
        Stem := "edgex/core/1.0/", ServiceKey := "consulUnitTest",
        ServiceHost := "", ServicePort := 0, ServiceProtocol := "",
        CheckRoute := "/api/v1/ping", CheckInterval := "1s" }
      (fun _ => .ok ())).2.2 rfl).1
  · exact ((register_incomplete_identity_no_network
      { consulUrl := "", configBasePath := "", serviceKey := "",
        serviceAddress := "", servicePort := 0, healthCheckUrl := "",
        healthCheckInterval := "" }
      (newKeeperClient
        { Protocol := "", Host := "localhost", Port := 59883,
          Stem := "edgex/core/1.0/", ServiceKey := "keeperUnitTest",
          ServiceHost := "", ServicePort := 0, ServiceProtocol := "",
          CheckRoute := "/api/v2/ping", CheckInterval := "10s" })
      { Protocol := "", Host := "localhost", Port := 59883,
        Stem := "edgex/core/1.0/", ServiceKey := "keeperUnitTest",
        ServiceHost := "", ServicePort := 0, ServiceProtocol := "",
        CheckRoute := "/api/v2/ping", CheckInterval := "10s" }
      (fun _ => .ok ())).2.2 rfl).2

/-- C3: when the first attempt of an operation fails with a 403/Forbidden-class
response and a renewal callback was supplied, the wrapper invokes the callback
exactly once, replaces the held token with the returned one, and retries the
operation exactly once more, surfacing the retried call's result; if the
renewal callback itself fails, its error is surfaced with no retry; in neither
case is any further renewal or retry attempted. -/
theorem renewAccessToken_retries_exactly_once {α : Type}
    (op : String → Except ConsulError α) (token newToken : String)
    (renewErr : ConsulError) (h : op token = .error .forbidden) :
    (retryWithAccessToken (some (.ok newToken)) token op).result = op newToken ∧
    (retryWithAccessToken (some (.ok newToken)) token op).heldToken = newToken ∧
    (retryWithAccessToken (some (.ok newToken)) token op).renewalCalls = 1 ∧
    (retryWithAccessToken (some (.ok newToken)) token op).attempts = 2 ∧
    (retryWithAccessToken (some (.error renewErr)) token op).result
      = .error renewErr ∧
    (retryWithAccessToken (some (.error renewErr)) token op).renewalCalls = 1 ∧
    (retryWithAccessToken (some (.error renewErr)) token op).attempts = 1 := by
  simp [retryWithAccessToken, h]

theorem renewAccessToken_witness :
    (retryWithAccessToken (some (.ok "bfb78dc5")) "badToken"
        (fun t => if t = "bfb78dc5" then Except.ok 0 else .error .forbidden)).result
      = Except.ok 0 ∧
    (retryWithAccessToken (some (.ok "bfb78dc5")) "badToken"
        (fun t => if t = "bfb78dc5" then Except.ok 0 else .error .forbidden)).renewalCalls
      = 1 ∧
    (retryWithAccessToken (some (.ok "bfb78dc5")) "badToken"
        (fun t => if t = "bfb78dc5" then Except.ok 0 else .error .forbidden)).attempts
      = 2 := by
  have h := renewAccessToken_retries_exactly_once
    (fun t => if t = "bfb78dc5" then Except.ok 0 else .error .forbidden)
    "badToken" "bfb78dc5" (.other "renew failed") (by simp)
  exact ⟨h.1.trans (by simp), h.2.2.1, h.2.2.2.1⟩

/-- C4 counterexample: on a backend with no registrations, the Keeper-style
`GetServiceEndpoint` for key "svc" does not return a successful zero-value
`ServiceEndpoint` — it fails with the "not found" error. -/
theorem keeperGetServiceEndpoint_unregistered_errors :
    keeperGetServiceEndpoint [] "svc"
      = .error "failed to get service endpoint: not found" ∧
    keeperGetServiceEndpoint [] "svc" ≠ .ok ⟨"", "", 0⟩ :=
  ⟨rfl, by simp [keeperGetServiceEndpoint]⟩

/-- C4 amended: for a service key with no registration in the backend, the
Keeper-style `GetServiceEndpoint` fails with the "not found" error, while the
Consul-style `GetServiceEndpoint` of internal/pkg/consul/client.go returns a
successful (nil-error) zero-value `ServiceEndpoint`; the later Consul client
(src/unnamed/part_006) fails with "no matching service endpoint found". -/
theorem getServiceEndpoint_unregistered_by_variant
    (registrations : List (String × Registration))
    (services : List (String × AgentService)) (serviceKey : String)
    (hreg : List.lookup serviceKey registrations = none)
    (hsvc : List.lookup serviceKey services = none) :
    keeperGetServiceEndpoint registrations serviceKey
      = .error "failed to get service endpoint: not found" ∧
    consulGetServiceEndpoint services serviceKey = .ok ⟨"", "", 0⟩ ∧
    consulGetServiceEndpointLater services serviceKey
      = .error "no matching service endpoint found" := by
  refine ⟨?_, ?_, ?_⟩
  · simp [keeperGetServiceEndpoint, hreg]
  · simp [consulGetServiceEndpoint, hsvc]
  · simp [consulGetServiceEndpointLater, hsvc]

theorem getServiceEndpoint_unregistered_witness :
    keeperGetServiceEndpoint [("other", ⟨"UP", "localhost", 8000⟩)] "svc"
      = .error "failed to get service endpoint: not found" ∧
    consulGetServiceEndpoint [("other", ⟨"localhost", 8000⟩)] "svc"
      = .ok ⟨"", "", 0⟩ ∧
    consulGetServiceEndpointLater [("other", ⟨"localhost", 8000⟩)] "svc"
      = .error "no matching service endpoint found" :=
  getServiceEndpoint_unregistered_by_variant
    [("other", ⟨"UP", "localhost", 8000⟩)] [("other", ⟨"localhost", 8000⟩)]
    "svc" (by decide) (by decide)

/-- C7: evaluating `HasConfiguration` at the scenario of the repository's own
`TestHasConfigurationPartialServiceKey`: the store holds the single key
"edgex/core/1.0/consulUnitTest-test/some-key", belonging to a different
service whose name merely shares the configuration base path
"edgex/core/1.0/consulUnitTest" as a textual prefix.  The code returns true
(the base path is listed without a trailing separator, so the sibling key
matches the prefix listing), while the test asserts false.  An empty listing
does return false. -/
theorem hasConfiguration_counts_shared_text_prefix :
    hasConfiguration "edgex/core/1.0/consulUnitTest"
        [("edgex/core/1.0/consulUnitTest-test/some-key", "Nothing")] = true ∧
    hasConfiguration "edgex/core/1.0/consulUnitTest" [] = false := by
  refine ⟨by decide, by decide⟩

/-- C8: the `case int64` branch converts the value to the native `int` type
(two's-complement wrap to the native width `w`) before rendering it as
decimal text; when the native `int` is 32 bits wide, every value outside the
32-bit range is changed by the conversion (precision is truncated), while
values inside the range pass through unchanged. -/
theorem int64_truncated_then_decimal (w : Nat) (path : String) (n : Int) :
    convertInterfaceToConsulPairs w path (.vInt64 n)
      = some [⟨path, itoa (intWrap w n)⟩] ∧
    (2 ^ 31 ≤ n ∨ n < -(2 ^ 31) → intWrap 32 n ≠ n) ∧
    (-(2 ^ 31) ≤ n → n < 2 ^ 31 → intWrap 32 n = n) := by
  refine ⟨rfl, ?_, ?_⟩
  · intro h
    unfold intWrap
    have e31 : (2 : Int) ^ (32 - 1) = 2147483648 := by norm_num
    have e32 : (2 : Int) ^ 32 = 4294967296 := by norm_num
    have e31' : (2 : Int) ^ 31 = 2147483648 := by norm_num
    rw [e31, e32]
    rw [e31'] at h
    have hlo : 0 ≤ (n + 2147483648) % 4294967296 :=
      Int.emod_nonneg _ (by norm_num)
    have hhi : (n + 2147483648) % 4294967296 < 4294967296 :=
      Int.emod_lt_of_pos _ (by norm_num)
    omega
  · intro h1 h2
    unfold intWrap
    have e31 : (2 : Int) ^ (32 - 1) = 2147483648 := by norm_num
    have e32 : (2 : Int) ^ 32 = 4294967296 := by norm_num
    have e31' : (2 : Int) ^ 31 = 2147483648 := by norm_num
    rw [e31, e32]
    rw [e31'] at h1 h2
    have h3 : (n + 2147483648) % 4294967296 = n + 2147483648 :=
      Int.emod_eq_of_lt (by omega) (by omega)
    omega

theorem int64_truncated_witness :
    convertInterfaceToConsulPairs 32 "int64" (.vInt64 (2 ^ 31))
      = some [⟨"int64", itoa (intWrap 32 (2 ^ 31))⟩] ∧
    intWrap 32 (2 ^ 31) ≠ 2 ^ 31 ∧
    itoa (intWrap 32 (2 ^ 31)) = "-2147483648" :=
  ⟨(int64_truncated_then_decimal 32 "int64" (2 ^ 31)).1,
   (int64_truncated_then_decimal 32 "int64" (2 ^ 31)).2.1 (Or.inl (by norm_num)),
   by decide⟩

/-- C9 counterexample: a `time.Time` scalar (which `toml.Tree.ToMap` produces
for a TOML datetime) reaches the `default` branch, whose type assertion
`.(string)` fails: the flattening panics instead of emitting the value's
string form. -/
theorem default_branch_panics_on_time :
    convertInterfaceToConsulPairs 64 "Service/Timestamp" (.vOther "time.Time")
      = none := rfl

/-- C9 amended: the `default` branch of the type switch is the unchecked Go
type assertion `interfaceMap.(string)`: for a `string` scalar it emits one
pair carrying the string unchanged, and for a scalar of any other unhandled
dynamic type the assertion fails, i.e. the walk panics (modelled as `none`)
rather than emitting a pair. -/
theorem default_branch_is_string_assertion (w : Nat) (path : String) :
    (∀ s, convertInterfaceToConsulPairs w path (.vStr s)
      = some [⟨path, s⟩]) ∧
    (∀ dynTypeName, convertInterfaceToConsulPairs w path (.vOther dynTypeName)
      = none) :=
  ⟨fun _ => rfl, fun _ => rfl⟩

theorem aggregatedStatusLoop_range (checks : List AgentCheck) :
    ∀ passing warning critical maintenance : Bool,
      aggregatedStatusLoop passing warning critical maintenance checks
          = "passing"
        ∨ aggregatedStatusLoop passing warning critical maintenance checks
          = "warning"
        ∨ aggregatedStatusLoop passing warning critical maintenance checks
          = "critical"
        ∨ aggregatedStatusLoop passing warning critical maintenance checks
          = "maintenance" := by
  induction checks with
  | nil =>
    intro p w c m
    simp only [aggregatedStatusLoop]
    split
    · exact Or.inr (Or.inr (Or.inr rfl))
    split
    · exact Or.inr (Or.inr (Or.inl rfl))
    split
    · exact Or.inr (Or.inl rfl)
    split
    · exact Or.inl rfl
    · exact Or.inl rfl
  | cons check rest ih =>
    intro p w c m
    simp only [aggregatedStatusLoop]
    split
    · exact ih p w c true
    split
    · exact ih true w c m
    split
    · exact ih p true c m
    split
    · exact ih p w true m
    · exact Or.inr (Or.inr (Or.inl rfl))

/-- On the values `AggregatedStatus` can return, exact comparison with
"passing" coincides with the case-insensitive comparison. -/
theorem aggregatedStatus_equalFold (checks : List AgentCheck) :
    stringsEqualFold (aggregatedStatus checks) "passing" = true
      ↔ aggregatedStatus checks = "passing" := by
  unfold aggregatedStatus
  rcases aggregatedStatusLoop_range checks false false false false with
    h | h | h | h <;> rw [h] <;> constructor <;> intro hx <;> first
    | rfl
    | exact by decide
    | exact absurd hx (by decide)

/-- C5: `IsServiceAvailable` returns (false, "not registered" error) for an
unregistered key; for a registered key it returns (true, no error) exactly
when the backend's reported status is healthy under case-insensitive
comparison ("UP" for the Keeper-style client, "passing" for the aggregated
Consul health status) and otherwise (false, "not healthy" error); for the
Consul-style client a registered key whose health-check listing is empty
yields (false, "no health checks" error). -/
theorem isServiceAvailable_registered_and_healthy
    (registrations : List (String × Registration))
    (services : List (String × AgentService))
    (checks : String → List AgentCheck) (serviceKey : String) :
    (List.lookup serviceKey registrations = none →
      keeperIsServiceAvailable registrations serviceKey
        = (false,
            some (serviceKey ++ " service is not registered. Might not have started... "))) ∧
    (∀ r, List.lookup serviceKey registrations = some r →
      (stringsEqualFold r.status "up" = false →
        keeperIsServiceAvailable registrations serviceKey
          = (false, some (" " ++ serviceKey ++ " service not healthy..."))) ∧
      (stringsEqualFold r.status "up" = true →
        keeperIsServiceAvailable registrations serviceKey = (true, none))) ∧
    (List.lookup serviceKey services = none →
      consulIsServiceAvailable services checks serviceKey
        = (false,
            some (serviceKey ++ " service is not registered. Might not have started... "))) ∧
    (∀ s, List.lookup serviceKey services = some s →
      ((checks serviceKey).length = 0 →
        consulIsServiceAvailable services checks serviceKey
          = (false, some ("no health checks for service " ++ serviceKey))) ∧
      ((checks serviceKey).length ≠ 0 →
        (stringsEqualFold (aggregatedStatus (checks serviceKey)) "passing" = false →
          consulIsServiceAvailable services checks serviceKey
            = (false, some (" " ++ serviceKey ++ " service not healthy..."))) ∧
        (stringsEqualFold (aggregatedStatus (checks serviceKey)) "passing" = true →
          consulIsServiceAvailable services checks serviceKey = (true, none)))) := by
  refine ⟨?_, ?_, ?_, ?_⟩
  · intro h
    simp [keeperIsServiceAvailable, h]
  · intro r h
    constructor
    · intro hf
      simp [keeperIsServiceAvailable, h, hf]
    · intro ht
      simp [keeperIsServiceAvailable, h, ht]
  · intro h
    simp [consulIsServiceAvailable, h]
  · intro s h
    constructor
    · intro hempty
      simp [consulIsServiceAvailable, h, hempty]
    · intro hne
      constructor
      · intro hf
        have hne' : aggregatedStatus (checks serviceKey) ≠ "passing" := by
          intro he
          rw [((aggregatedStatus_equalFold (checks serviceKey)).2 he)] at hf
          exact absurd hf (by decide)
        simp [consulIsServiceAvailable, h, hne, hne']
      · intro ht
        have he := (aggregatedStatus_equalFold (checks serviceKey)).1 ht
        simp [consulIsServiceAvailable, h, hne, he]

theorem isServiceAvailable_witness :
    keeperIsServiceAvailable [("svc", ⟨"UP", "localhost", 8000⟩)] "svc"
      = (true, none) ∧
    keeperIsServiceAvailable [("svc", ⟨"", "localhost", 8000⟩)] "svc"
      = (false, some (" " ++ "svc" ++ " service not healthy...")) ∧
    keeperIsServiceAvailable [] "svc"
      = (false,
          some ("svc" ++ " service is not registered. Might not have started... ")) ∧
    consulIsServiceAvailable [("svc", ⟨"localhost", 8000⟩)]
        (fun _ => [⟨"Health Check: svc", "passing"⟩]) "svc"
      = (true, none) ∧
    consulIsServiceAvailable [("svc", ⟨"localhost", 8000⟩)]
        (fun _ => [⟨"Health Check: svc", "critical"⟩]) "svc"
      = (false, some (" " ++ "svc" ++ " service not healthy...")) := by
  refine ⟨?_, ?_, ?_, ?_, ?_⟩
  · exact ((isServiceAvailable_registered_and_healthy
      [("svc", ⟨"UP", "localhost", 8000⟩)] [] (fun _ => []) "svc").2.1
      ⟨"UP", "localhost", 8000⟩ (by decide)).2 (by decide)
  · exact ((isServiceAvailable_registered_and_healthy
      [("svc", ⟨"", "localhost", 8000⟩)] [] (fun _ => []) "svc").2.1
      ⟨"", "localhost", 8000⟩ (by decide)).1 (by decide)
  · exact (isServiceAvailable_registered_and_healthy [] [] (fun _ => [])
      "svc").1 (by decide)
  · exact (((isServiceAvailable_registered_and_healthy []
      [("svc", ⟨"localhost", 8000⟩)]
      (fun _ => [⟨"Health Check: svc", "passing"⟩]) "svc").2.2.2
      ⟨"localhost", 8000⟩ (by decide)).2 (by decide)).2 (by decide)
  · exact (((isServiceAvailable_registered_and_healthy []
      [("svc", ⟨"localhost", 8000⟩)]
      (fun _ => [⟨"Health Check: svc", "critical"⟩]) "svc").2.2.2
      ⟨"localhost", 8000⟩ (by decide)).2 (by decide)).1 (by decide)

mutual

theorem convert_eq_specFlatten (w : Nat) (path : String) (v : Value)
    (h : handledOnly v = true) :
    convertInterfaceToConsulPairs w path v = some (specFlatten w path v) := by
  cases v with
  | vSeq items =>
    simp only [convertInterfaceToConsulPairs, specFlatten]
    exact convertSeq_eq_specItems w path 0 items
      (by simpa [handledOnly] using h)
  | vMap fields =>
    simp only [convertInterfaceToConsulPairs, specFlatten]
    exact convertMap_eq_specFields w path fields
      (by simpa [handledOnly] using h)
  | vInt n => rfl
  | vInt64 n => rfl
  | vFloat64 c => rfl
  | vBool b => rfl
  | vNull => rfl
  | vStr s => exact absurd h (by simp [handledOnly])
  | vOther t => exact absurd h (by simp [handledOnly])

theorem convertSeq_eq_specItems (w : Nat) (path : String) (index : Nat)
    (items : ValueItems) (h : handledOnlyItems items = true) :
    convertSeqPairs w (if path = "" then "" else path ++ "/") index items
      = some (specFlattenItems w path index items) := by
  cases items with
  | nil => rfl
  | cons v rest =>
    have h12 : handledOnly v = true ∧ handledOnlyItems rest = true := by
      simpa [handledOnlyItems, Bool.and_eq_true] using h
    simp only [convertSeqPairs, specFlattenItems]
    rw [string_pathPre_append path (itoa index)]
    rw [convert_eq_specFlatten w (joinPath path (itoa index)) v h12.1]
    rw [convertSeq_eq_specItems w path (index + 1) rest h12.2]

theorem convertMap_eq_specFields (w : Nat) (path : String)
    (fields : ValueFields) (h : handledOnlyFields fields = true) :
    convertMapPairs w (if path = "" then "" else path ++ "/") fields
      = some (specFlattenFields w path fields) := by
  cases fields with
  | nil => rfl
  | cons name v rest =>
    have h12 : handledOnly v = true ∧ handledOnlyFields rest = true := by
      simpa [handledOnlyFields, Bool.and_eq_true] using h
    simp only [convertMapPairs, specFlattenFields]
    rw [string_pathPre_append path name]
    rw [convert_eq_specFlatten w (joinPath path name) v h12.1]
    rw [convertMap_eq_specFields w path rest h12.2]

end

mutual

theorem specFlatten_length (w : Nat) (path : String) (v : Value)
    (h : handledOnly v = true) :
    (specFlatten w path v).length = leafCount v := by
  cases v with
  | vSeq items =>
    simp only [specFlatten, leafCount]
    exact specFlattenItems_length w path 0 items
      (by simpa [handledOnly] using h)
  | vMap fields =>
    simp only [specFlatten, leafCount]
    exact specFlattenFields_length w path fields
      (by simpa [handledOnly] using h)
  | vInt n => rfl
  | vInt64 n => rfl
  | vFloat64 c => rfl
  | vBool b => rfl
  | vNull => rfl
  | vStr s => exact absurd h (by simp [handledOnly])
  | vOther t => exact absurd h (by simp [handledOnly])

theorem specFlattenItems_length (w : Nat) (path : String) (index : Nat)
    (items : ValueItems) (h : handledOnlyItems items = true) :
    (specFlattenItems w path index items).length = leafCountItems items := by
  cases items with
  | nil => rfl
  | cons v rest =>
    have h12 : handledOnly v = true ∧ handledOnlyItems rest = true := by
      simpa [handledOnlyItems, Bool.and_eq_true] using h
    simp only [specFlattenItems, leafCountItems, List.length_append]
    rw [specFlatten_length w (joinPath path (itoa index)) v h12.1]
    rw [specFlattenItems_length w path (index + 1) rest h12.2]

theorem specFlattenFields_length (w : Nat) (path : String)
    (fields : ValueFields) (h : handledOnlyFields fields = true) :
    (specFlattenFields w path fields).length = leafCountFields fields := by
  cases fields with
  | nil => rfl
  | cons name v rest =>
    have h12 : handledOnly v = true ∧ handledOnlyFields rest = true := by
      simpa [handledOnlyFields, Bool.and_eq_true] using h
    simp only [specFlattenFields, leafCountFields, List.length_append]
    rw [specFlatten_length w (joinPath path name) v h12.1]
    rw [specFlattenFields_length w path rest h12.2]

end

/-- C1: on every configuration value built from nested maps, sequences and
handled scalars, `convertInterfaceToConsulPairs` computes exactly the
flattening described by the specification — the path of each emitted pair
joins map field names and decimal sequence indices with "/" (no separator at
the root) and the value is encoded per scalar kind (decimal text for
integers, the native-width-wrapped decimal for 64-bit integers, the shortest
round-trippable decimal representation for 64-bit floats, "true"/"false" for
booleans, the empty string for null) — and the number of emitted pairs equals
the number of scalar leaves. -/
theorem flatten_one_pair_per_scalar_leaf (w : Nat) (path : String) (v : Value)
    (h : handledOnly v = true) :
    convertInterfaceToConsulPairs w path v = some (specFlatten w path v) ∧
    (specFlatten w path v).length = leafCount v :=
  ⟨convert_eq_specFlatten w path v h, specFlatten_length w path v h⟩

theorem flatten_one_pair_per_scalar_leaf_witness :
    handledOnly sampleConfig = true ∧
    convertInterfaceToConsulPairs 64 "" sampleConfig
      = some (specFlatten 64 "" sampleConfig) ∧
    specFlatten 64 "" sampleConfig
      = [⟨"int", "1"⟩, ⟨"int64", "64"⟩, ⟨"float64", "1.4"⟩, ⟨"bool", "true"⟩,
         ⟨"seq/0", ""⟩, ⟨"seq/1", "7"⟩] ∧
    (specFlatten 64 "" sampleConfig).length = leafCount sampleConfig :=
  ⟨by decide,
   (flatten_one_pair_per_scalar_leaf 64 "" sampleConfig (by decide)).1,
   by decide,
   (flatten_one_pair_per_scalar_leaf 64 "" sampleConfig (by decide)).2⟩

theorem lookup_overwrite (k v : String) (l : List (String × String)) :
    ∀ k', List.lookup k' (l.map fun e => if e.1 = k then (k, v) else e)
      = if k' = k then (if (List.lookup k l).isSome then some v else none)
        else List.lookup k' l := by
  induction l with
  | nil => intro k'; simp [List.lookup]
  | cons e rest ih =>
    obtain ⟨a, b⟩ := e
    intro k'
    by_cases he : a = k
    · subst he
      rw [List.map_cons,
        show (if ((a, b) : String × String).1 = a then (a, v) else (a, b))
          = (a, v) from by simp]
      by_cases hk : k' = a
      · subst hk
        simp [List.lookup]
      · have h1 : (k' == a) = false := by simp [hk]
        simp only [List.lookup, h1, ih k', hk, if_false]
    · rw [List.map_cons,
        show (if ((a, b) : String × String).1 = k then (k, v) else (a, b))
          = (a, b) from by simp [he]]
      have hka : (k == a) = false := by simp [Ne.symm he]
      by_cases hk : k' = a
      · subst hk
        have h1 : ¬k' = k := fun hh => he hh
        have h2 : (k' == k') = true := by simp
        simp only [List.lookup, h2, h1, if_false, hka]
      · have h1 : (k' == a) = false := by simp [hk]
        simp only [List.lookup, h1, hka, ih k']

theorem lookup_append_single (k v : String) (l : List (String × String)) :
    ∀ k', List.lookup k' (l ++ [(k, v)])
      = match List.lookup k' l with
        | some w => some w
        | none => if k' = k then some v else none := by
  induction l with
  | nil =>
    intro k'
    by_cases hk : k' = k
    · simp [List.lookup, hk]
    · have h1 : (k' == k) = false := by simp [hk]
      simp [List.lookup, h1, hk]
  | cons e rest ih =>
    obtain ⟨a, b⟩ := e
    intro k'
    by_cases hk : k' = a
    · subst hk
      simp [List.lookup]
    · have h1 : (k' == a) = false := by simp [hk]
      simp [List.lookup, h1, ih k']

theorem storeGet_storePut_self (store : ConsulStore) (k v : String) :
    storeGet (storePut store k v) k = some v := by
  unfold storePut
  by_cases hs : (storeGet store k).isSome
  · rw [if_pos hs]
    unfold storeGet at hs ⊢
    rw [lookup_overwrite k v store k, if_pos rfl, if_pos hs]
  · rw [if_neg hs]
    unfold storeGet at hs ⊢
    rw [lookup_append_single k v store k]
    cases hcase : List.lookup k store with
    | none => simp
    | some wv => rw [hcase] at hs; simp at hs

theorem storeGet_storePut_other (store : ConsulStore) (k v k' : String)
    (h : k' ≠ k) : storeGet (storePut store k v) k' = storeGet store k' := by
  unfold storePut
  by_cases hs : (storeGet store k).isSome
  · rw [if_pos hs]
    unfold storeGet
    rw [lookup_overwrite k v store k', if_neg h]
  · rw [if_neg hs]
    unfold storeGet
    rw [lookup_append_single k v store k']
    cases hcase : List.lookup k' store with
    | none => simp [if_neg h]
    | some wv => simp

theorem putPairsLoop_false_preserves (configBasePath : String)
    (pairs : List Pair) :
    ∀ (store : ConsulStore) (k v : String), storeGet store k = some v →
      storeGet (putPairsLoop configBasePath false store pairs) k = some v := by
  induction pairs with
  | nil => intro store k v h; exact h
  | cons p rest ih =>
    intro store k v h
    simp only [putPairsLoop]
    by_cases hex : configurationValueExists configBasePath store p.key
    · rw [if_neg (by simp [hex])]
      exact ih store k v h
    · rw [if_pos (by simp [hex])]
      apply ih
      unfold putConfigurationValue
      have hne : k ≠ fullPath configBasePath p.key := by
        intro hkk
        apply hex
        unfold configurationValueExists
        rw [← hkk, h]
        rfl
      rw [storeGet_storePut_other store _ _ _ hne]
      exact h

theorem putPairsLoop_false_changes_only_new (configBasePath : String)
    (pairs : List Pair) :
    ∀ (store : ConsulStore) (k : String),
      storeGet (putPairsLoop configBasePath false store pairs) k
          ≠ storeGet store k →
      storeGet store k = none := by
  induction pairs with
  | nil => intro store k h; exact absurd rfl h
  | cons p rest ih =>
    intro store k h
    simp only [putPairsLoop] at h
    by_cases hex : configurationValueExists configBasePath store p.key
    · rw [if_neg (by simp [hex])] at h
      exact ih store k h
    · rw [if_pos (by simp [hex])] at h
      by_cases hk : k = fullPath configBasePath p.key
      · unfold configurationValueExists at hex
        rw [← hk] at hex
        cases hcase : storeGet store k with
        | none => rfl
        | some wv => rw [hcase] at hex; exact absurd (by rfl) hex
      · have heq : storeGet
            (putConfigurationValue configBasePath store p.key p.value) k
            = storeGet store k := by
          unfold putConfigurationValue
          exact storeGet_storePut_other store _ _ _ hk
        by_cases hfin : storeGet (putPairsLoop configBasePath false
            (putConfigurationValue configBasePath store p.key p.value) rest) k
            = storeGet (putConfigurationValue configBasePath store p.key p.value) k
        · rw [hfin, heq] at h
          exact absurd rfl h
        · have hnone := ih _ k hfin
          rw [heq] at hnone
          exact hnone

/-- C2: with `overwrite = false`, `PutConfigurationToml` leaves every key that
already holds a value in the store unchanged — each flattened pair is written
only if its key does not already exist (or `overwrite` is true) — and
consequently putting a changed structure again with `overwrite = false` leaves
all originally-stored values unchanged. -/
theorem putConfigurationToml_overwrite_false_frame (w : Nat)
    (configBasePath : String) (store : ConsulStore)
    (configuration configuration2 : Value) (k v : String) :
    (∀ store',
      putConfigurationToml w configBasePath store configuration false
          = some store' →
      storeGet store k = some v → storeGet store' k = some v) ∧
    (∀ store',
      putConfigurationToml w configBasePath store configuration false
          = some store' →
      storeGet store' k ≠ storeGet store k → storeGet store k = none) ∧
    (∀ store1 store2,
      putConfigurationToml w configBasePath store configuration false
          = some store1 →
      putConfigurationToml w configBasePath store1 configuration2 false
          = some store2 →
      storeGet store1 k = some v → storeGet store2 k = some v) := by
  refine ⟨?_, ?_, ?_⟩
  · intro store' hput h
    unfold putConfigurationToml at hput
    cases hconv : convertInterfaceToConsulPairs w "" configuration with
    | none => rw [hconv] at hput; exact absurd hput (by simp)
    | some pairs =>
      rw [hconv] at hput
      have hst : store' = putPairsLoop configBasePath false store pairs := by
        injection hput with hput'
        exact hput'.symm
      rw [hst]
      exact putPairsLoop_false_preserves configBasePath pairs store k v h
  · intro store' hput h
    unfold putConfigurationToml at hput
    cases hconv : convertInterfaceToConsulPairs w "" configuration with
    | none => rw [hconv] at hput; exact absurd hput (by simp)
    | some pairs =>
      rw [hconv] at hput
      have hst : store' = putPairsLoop configBasePath false store pairs := by
        injection hput with hput'
        exact hput'.symm
      rw [hst] at h
      exact putPairsLoop_false_changes_only_new configBasePath pairs store k h
  · intro store1 store2 hput1 hput2 h
    unfold putConfigurationToml at hput2
    cases hconv : convertInterfaceToConsulPairs w "" configuration2 with
    | none => rw [hconv] at hput2; exact absurd hput2 (by simp)
    | some pairs =>
      rw [hconv] at hput2
      have hst : store2 = putPairsLoop configBasePath false store1 pairs := by
        injection hput2 with hput'
        exact hput'.symm
      rw [hst]
      exact putPairsLoop_false_preserves configBasePath pairs store1 k v h

theorem putConfigurationToml_overwrite_false_witness :
    putConfigurationToml 64 "base" [("base/int", "1")]
        (.vMap (.cons "int" (.vInt 2) .nil)) false = some [("base/int", "1")] ∧
    storeGet [("base/int", "1")] "base/int" = some "1" :=
  ⟨by decide,
   (putConfigurationToml_overwrite_false_frame 64 "base" [("base/int", "1")]
      (.vMap (.cons "int" (.vInt 2) .nil)) (.vMap (.cons "int" (.vInt 2) .nil))
      "base/int" "1").1 [("base/int", "1")] (by decide) (by decide)⟩

end GoRegistry
